import Mathlib

/-!
Formal model of the austria-drought-map pipeline.

This file gives a shallow embedding, in Lean 4, of the core data
transformations of the repository (trend extraction, spatial
aggregation, risk composition and the registry merge passes), and
proves or refutes the behavioural properties claimed for them.

Conventions used throughout:

- Python floats are modelled as rational numbers.  None of the
  properties below hinges on binary floating point rounding, so exact
  rational arithmetic is the faithful abstraction.
- A timestamp is encoded as a natural number of the shape
  yyyy * 10000 + mm * 100 + dd, which orders dates chronologically and
  lets the year be recovered by division.
- Python dictionaries built by successive keyed assignment are
  modelled as association lists in assignment order, with a
  last-binding-wins lookup.
- The great-circle (haversine) distance of integrate_flow.py is a
  transcendental function of the coordinates; the aggregation logic is
  therefore parameterised by an abstract distance function, which is
  all the selection and weighting claims depend on.
- Raw text lines are modelled as lists of characters, so that every
  parsing function is executable by kernel reduction.
-/

/-- Floor of a rational number, computed with integer floor division
(the denominator of a normalised rational is positive). -/
def ratFloor (q : ℚ) : ℤ := Int.fdiv q.num q.den

/-- Round a rational to the nearest integer, ties to even, which is the
rounding mode of the Python builtin round. -/
def pyRoundHalfEven (q : ℚ) : ℤ :=
  let f := ratFloor q
  let r := q - (f : ℚ)
  if r < 1/2 then f
  else if 1/2 < r then f + 1
  else if Even f then f else f + 1

/-- Model of the Python call round(x, 3). -/
def pyRound3 (q : ℚ) : ℚ := (pyRoundHalfEven (q * 1000) : ℚ) / 1000

/-- Arithmetic mean of a list of rationals (numpy mean / pandas mean). -/
def listMean (l : List ℚ) : ℚ := l.sum / (l.length : ℚ)

namespace AnalyzeTrendsFull

/-!
Embedding of scripts/analyze_trends_full.py.

An observation pairs an encoded date with a measured value.
-/

/-- One observation of a monthly groundwater series: encoded date and
measured value. -/
abbrev Obs := Nat × ℚ

instance : DecidableRel (fun (a b : Obs) => a.1 ≤ b.1) :=
  fun a b => Nat.decLe a.1 b.1

instance : DecidableRel (fun (a b : ℚ) => a ≤ b) :=
  fun a b => inferInstanceAs (Decidable (a ≤ b))

instance : IsTotal Obs (fun a b => a.1 ≤ b.1) := ⟨fun a b => Nat.le_total a.1 b.1⟩

instance : IsTrans Obs (fun a b => a.1 ≤ b.1) := ⟨fun _ _ _ => Nat.le_trans⟩

/-- Drop every later observation whose date was already seen, keeping
the first occurrence.  This is the pandas idiom
series[~series.index.duplicated(keep=\x22first\x22)] used at line 77 of
analyze_trends_full.py. -/
def dedupByDate : List Obs → List Obs
  | [] => []
  | o :: rest => o :: dedupByDate (rest.filter (fun p => p.1 != o.1))
termination_by l => l.length
decreasing_by
  simp only [List.length_cons]
  exact Nat.lt_succ_of_le (List.length_filter_le _ _)

/-- Deduplicate by timestamp keeping the first occurrence, then sort
ascending by date: the cleaning step
series[~series.index.duplicated(keep=\x22first\x22)].sort_index() of
calculate_trend in analyze_trends_full.py. -/
def cleanSeries (s : List Obs) : List Obs :=
  List.insertionSort (fun a b => a.1 ≤ b.1) (dedupByDate s)

/-- The pandas Series.quantile with the default linear interpolation:
sort the values, take position q * (n - 1) and interpolate between the
two neighbouring order statistics. -/
def quantileLinear (l : List ℚ) (q : ℚ) : ℚ :=
  let v := List.insertionSort (fun a b : ℚ => a ≤ b) l
  let n := v.length
  if n = 0 then 0
  else
    let h : ℚ := q * ((n : ℚ) - 1)
    let i : Nat := (ratFloor h).toNat
    let frac : ℚ := h - ((ratFloor h : ℤ) : ℚ)
    let lo := v.getD i 0
    let hi := v.getD (min (i + 1) (n - 1)) 0
    lo + frac * (hi - lo)

/-- Interquartile-range outlier rejection of calculate_trend in
analyze_trends_full.py (lines 79 to 86): when Q3 - Q1 is positive, keep
the observations whose value lies within three interquartile ranges of
the quartiles; otherwise keep the series unchanged. -/
def iqrFilter (s : List Obs) : List Obs :=
  let q1 := quantileLinear (s.map Prod.snd) (1/4)
  let q3 := quantileLinear (s.map Prod.snd) (3/4)
  let iqr := q3 - q1
  if 0 < iqr then
    s.filter (fun o => decide (q1 - 3 * iqr ≤ o.2) && decide (o.2 ≤ q3 + 3 * iqr))
  else s

/-- Calendar year of an observation. -/
def yearOf (o : Obs) : Nat := o.1 / 10000

/-- Resampling to annual means with empty years dropped, the
series.resample(YE).mean().dropna() step: one mean per calendar year
that carries at least one observation, in chronological order when the
input is sorted. -/
def annualMeans (s : List Obs) : List ℚ :=
  ((s.map yearOf).dedup).map
    (fun y => listMean ((s.filter (fun o => yearOf o == y)).map Prod.snd))

/-- Ordinary least squares slope of the values against the index
0, 1, ..., n - 1, as computed by scipy.stats.linregress. -/
def olsSlope (ys : List ℚ) : ℚ :=
  let n := ys.length
  let xbar : ℚ := ((n : ℚ) - 1) / 2
  let ybar : ℚ := listMean ys
  let num := (ys.enum.map (fun p => ((p.1 : ℚ) - xbar) * (p.2 - ybar))).sum
  let den := (ys.enum.map (fun p => ((p.1 : ℚ) - xbar) * ((p.1 : ℚ) - xbar))).sum
  num / den

/-- The payload returned by calculate_trend on success: decadal trend,
years of data, mean level and the most recent annual level.  The
p-value that the script also reports is significance metadata; it never
gates acceptance and is omitted from the model. -/
structure Trend where
  trend_m_per_decade : ℚ
  data_years : ℚ
  mean_level : ℚ
  current_level : ℚ
deriving DecidableEq

/-- Embedding of calculate_trend from analyze_trends_full.py, lines 70
to 120: require at least 60 raw samples, deduplicate and sort, reject
outliers by the IQR rule, require at least 60 surviving samples,
resample to annual means, require at least 5 annual aggregates, require
the mean annual value in [0, 3000], fit an OLS slope, scale it to a
decade and require its magnitude at most 2. -/
def calculate_trend (series : List Obs) : Option Trend :=
  let s2 := iqrFilter (cleanSeries series)
  let annual := annualMeans s2
  let mean_val := listMean annual
  let trend := olsSlope annual * 10
  if series.length < 60 then none
  else if s2.length < 60 then none
  else if annual.length < 5 then none
  else if mean_val < 0 ∨ 3000 < mean_val then none
  else if 2 < |trend| then none
  else some ⟨trend, (s2.length : ℚ) / 12, mean_val, annual.getLastD 0⟩

/-- The annual aggregates that the pipeline derives from a raw series
before fitting: cleaned, outlier-filtered and resampled. -/
def gateAnnual (series : List Obs) : List ℚ :=
  annualMeans (iqrFilter (cleanSeries series))

/-- The three acceptance conditions named by the specification,
evaluated on the aggregates the pipeline itself computes: at least the
configured minimum (5) of annual aggregates, mean annual value inside
the plausible range [0, 3000], and decadal slope magnitude at most the
configured bound 2. -/
def gateConditions (series : List Obs) : Prop :=
  5 ≤ (gateAnnual series).length ∧ 0 ≤ listMean (gateAnnual series) ∧
    listMean (gateAnnual series) ≤ 3000 ∧ |olsSlope (gateAnnual series) * 10| ≤ 2

instance (series : List Obs) : Decidable (gateConditions series) := by
  unfold gateConditions
  infer_instance

/-- A 59-sample monthly series, constant at value 100, spread over the
five years 2000 to 2004 (twelve months in each of the first four years,
eleven in the last). -/
def cexSeries : List Obs :=
  (List.range 59).map (fun i => ((2000 + i / 12) * 10000 + (i % 12 + 1) * 100 + 1, 100))

/-- Strict-threshold risk categorisation of update_municipality_risk in
analyze_trends_full.py, line 233: high above 0.7, medium above 0.4,
low otherwise, with strict comparisons. -/
def risk_category_trends_full (score : ℚ) : String :=
  if 7/10 < score then "high" else if 4/10 < score then "medium" else "low"

end AnalyzeTrendsFull

namespace IntegrateFlow

/-!
Embedding of scripts/integrate_flow.py.

A flow station record carries the fields of data/flow_analysis.json
that find_nearby_flow reads: the relative decadal trend, the mean
discharge and an optional river label.  The script computes the
distance of each station from the municipality with the haversine
great-circle formula; since that formula is transcendental and every
claim below concerns only how distances are used, the distance is a
parameter of the model.
-/

/-- One trend-bearing flow station as read by find_nearby_flow. -/
structure FlowStation where
  trend_pct_decade : ℚ
  mean_flow_m3s : ℚ
  river : Option String
deriving DecidableEq

/-- Distance (in km) of a station from the municipality under
consideration. -/
abbrev DistFn := FlowStation → ℚ

instance : DecidableRel (fun (p q : FlowStation × ℚ) => p.2 ≤ q.2) :=
  fun p q => inferInstanceAs (Decidable (p.2 ≤ q.2))

instance : IsTotal (FlowStation × ℚ) (fun p q => p.2 ≤ q.2) :=
  ⟨fun p q => le_total p.2 q.2⟩

instance : IsTrans (FlowStation × ℚ) (fun p q => p.2 ≤ q.2) :=
  ⟨fun _ _ _ => le_trans⟩

/-- Attach to every station its distance from the municipality, the
augmented record that the script builds as a dict with a dist key. -/
def withDist (dist : DistFn) (l : List FlowStation) : List (FlowStation × ℚ) :=
  l.map (fun f => (f, dist f))

/-- The stations whose distance is at most the search radius, with
their distances, in input order (first loop of find_nearby_flow). -/
def withinRadius (dist : DistFn) (l : List FlowStation) (maxD : ℚ) :
    List (FlowStation × ℚ) :=
  (withDist dist l).filter (fun p => decide (p.2 ≤ maxD))

/-- All stations sorted by distance.  The Python list sort is stable,
so equal distances keep the input order; insertion sort is stable in
the same sense. -/
def sortedByDist (dist : DistFn) (l : List FlowStation) : List (FlowStation × ℚ) :=
  List.insertionSort (fun p q => p.2 ≤ q.2) (withDist dist l)

/-- The contributing set of find_nearby_flow: the stations within the
radius when that set is non-empty, otherwise the three nearest
stations. -/
def contributing (dist : DistFn) (l : List FlowStation) (maxD : ℚ) :
    List (FlowStation × ℚ) :=
  let w := withinRadius dist l maxD
  if w.isEmpty then (sortedByDist dist l).take 3 else w

/-- The inverse-distance weight 1 / (1 + d) of line 62. -/
def invWeight (d : ℚ) : ℚ := 1 / (1 + d)

/-- Distinct non-empty river labels of the contributing stations.  The
script materialises a Python set here, whose iteration order is
unspecified; it is modelled as deduplication, which the claims never
depend on. -/
def riversOf (nearby : List (FlowStation × ℚ)) : List String :=
  (nearby.filterMap (fun p =>
    match p.1.river with
    | some r => if r = "" then none else some r
    | none => none)).dedup

/-- Result record of find_nearby_flow: weighted trend, weighted mean
flow, contributing count, river labels and the estimated flag. -/
structure FlowSummary where
  avg_trend : Option ℚ
  avg_flow : Option ℚ
  count : Nat
  rivers : List String
  estimated : Bool
deriving DecidableEq

/-- Embedding of find_nearby_flow from integrate_flow.py, lines 30 to
74: select the contributing stations, then return the
inverse-distance-weighted means of trend and discharge together with
the estimated flag, which is true exactly when the fallback
nearest-three path was taken and produced a usable summary. -/
def find_nearby_flow (dist : DistFn) (stations : List FlowStation) (maxD : ℚ) :
    FlowSummary :=
  let within := withinRadius dist stations maxD
  let nearby := contributing dist stations maxD
  if nearby.isEmpty then ⟨none, none, 0, [], false⟩
  else
    let total_weight := (nearby.map (fun p => invWeight p.2)).sum
    let weighted_trend := (nearby.map (fun p => p.1.trend_pct_decade * invWeight p.2)).sum
    let weighted_flow := (nearby.map (fun p => p.1.mean_flow_m3s * invWeight p.2)).sum
    if 0 < total_weight then
      ⟨some (weighted_trend / total_weight), some (weighted_flow / total_weight),
        nearby.length, (riversOf nearby).take 4, within.isEmpty⟩
    else ⟨none, none, 0, [], false⟩

/-- The weighted mean that the specification prescribes: the sum of
value times 1 / (1 + distance) over the contributors, divided by the
sum of the weights. -/
def weightedMeanBy (v : FlowStation × ℚ → ℚ) (l : List (FlowStation × ℚ)) : ℚ :=
  ((l.map (fun p => v p * invWeight p.2)).sum) / ((l.map (fun p => invWeight p.2)).sum)

/-- The municipality fields read by recalculate_risk_score.  A value of
none models both an absent key and a stored JSON null. -/
structure Muni where
  gw_risk : Option ℚ
  hydro_factor : Option ℚ
  precip_risk : Option ℚ
  flow_risk : Option ℚ
deriving DecidableEq

/-- Model of the Python idiom muni.get(key, d) or d: an absent key, a
null, and a stored zero all collapse to the default, because 0 and
None are falsy. -/
def orFalsy (o : Option ℚ) (d : ℚ) : ℚ :=
  match o with
  | none => d
  | some v => if v = 0 then d else v

/-- Inclusive-threshold categorisation used by recalculate_risk_score
in integrate_flow.py (and integrate_precipitation.py): high at or above
0.6, medium at or above 0.4, low below. -/
def categorize_integrate (score : ℚ) : String :=
  if 6/10 ≤ score then "high" else if 4/10 ≤ score then "medium" else "low"

/-- Embedding of recalculate_risk_score from integrate_flow.py, lines
105 to 128: groundwater and the hydro factor default to 0, the
precipitation and flow risks default to 0.5, the composite is the
fixed 0.35 / 0.25 / 0.25 / 0.15 weighting, the category is computed on
the unrounded score and the returned score is rounded to three
decimals. -/
def recalculate_risk_score (m : Muni) : ℚ × String :=
  let gw := orFalsy m.gw_risk 0
  let hf := orFalsy m.hydro_factor 0
  let pr := orFalsy m.precip_risk (1/2)
  let fl := orFalsy m.flow_risk (1/2)
  let score := gw * (35/100) + hf * (25/100) + pr * (25/100) + fl * (15/100)
  (pyRound3 score, categorize_integrate score)

/-- Worked fallback scenario for the spatial aggregation: three
trend-bearing stations at 5, 40 and 61 km, none within a 3 km
radius. -/
def exStations : List FlowStation :=
  [⟨1, 10, some "Raab"⟩, ⟨-1, 20, some "Mur"⟩, ⟨1/2, 30, none⟩]

/-- Distance function of the worked fallback scenario. -/
def exDist : DistFn := fun f =>
  if f.trend_pct_decade = 1 then 5 else if f.trend_pct_decade = -1 then 40 else 61

/-- Single-station input for the weighted-mean witness. -/
def exStations7 : List FlowStation := [⟨2, 8, some "Inn"⟩]

/-- Constant distance of 5 km for the weighted-mean witness. -/
def exDist7 : DistFn := fun _ => 5

end IntegrateFlow

namespace QuickProcess

/-!
Embedding of calculate_risk_scores from scripts/quick_process.py.

The script draws numpy.random.uniform(0.3, 0.7) per municipality as a
placeholder trend component of the risk score.  The draw is made an
explicit argument of the model, so that the dependence of the output
on it can be stated.
-/

/-- The two fields of a municipality record that calculate_risk_scores
reads. -/
structure QMuni where
  hydro_capacity : ℚ
  pump_storage : ℚ
deriving DecidableEq

/-- Model of max(xs) or 1: the maximum of the collection, replaced by 1
when it is falsy (zero).  Python max raises on an empty collection; the
empty case is mapped to the fallback. -/
def pyMaxOr1 (l : List ℚ) : ℚ :=
  match l.max? with
  | none => 1
  | some v => if v = 0 then 1 else v

/-- Risk score of one municipality given the normalisation maxima and
the uniform draw u: round(0.5 * hydro_risk + 0.3 * pump_risk + 0.2 * u, 3)
from lines 285 to 290 of quick_process.py. -/
def risk_score_draw (maxH maxP u : ℚ) (m : QMuni) : ℚ :=
  pyRound3 ((1/2) * (m.hydro_capacity / maxH) + (3/10) * (m.pump_storage / maxP) + (1/5) * u)

/-- Embedding of calculate_risk_scores from quick_process.py, lines 265
to 300, restricted to the risk_score field it stores: the i-th
municipality is scored with the i-th random draw. -/
def calculate_risk_scores (ms : List QMuni) (draws : List ℚ) : List ℚ :=
  let maxH := pyMaxOr1 (ms.map (fun m => m.hydro_capacity))
  let maxP := pyMaxOr1 (ms.map (fun m => m.pump_storage))
  (ms.zip draws).map (fun p => risk_score_draw maxH maxP p.2 p.1)

end QuickProcess

namespace FixCoordinates

/-!
Embedding of the merge step of scripts/fix_coordinates.py (main, lines
74 to 101).  The pyproj coordinate transform itself is an external
collaborator; the model takes the already reprojected station list as
input, which is what the merge step consumes.
-/

/-- The extracted trend payload that main copies from an old record
into trend_data: station_id resolved against the record id, the trend,
and the remaining optional trend-owned fields with change_pct
defaulting to 0. -/
structure TrendRec where
  station_id : String
  trend_m_per_decade : ℚ
  p_value : Option ℚ
  change_pct : ℚ
  data_years : Option ℚ
  mean_level : Option ℚ
  current_level : Option ℚ
deriving DecidableEq

/-- A record of the previously saved gw_stations_trends.json, with the
optional keys that the extraction reads.  The trend_m_per_decade key is
the marker of a trend-bearing record. -/
structure OldStation where
  id : String
  station_id : Option String
  trend_m_per_decade : Option ℚ
  p_value : Option ℚ
  change_pct : Option ℚ
  data_years : Option ℚ
  mean_level : Option ℚ
  current_level : Option ℚ
deriving DecidableEq

/-- The trend_data entry built from one old record (lines 82 to 91 of
fix_coordinates.py), defined when the record carries a trend. -/
def extractTrend (s : OldStation) : Option TrendRec :=
  match s.trend_m_per_decade with
  | none => none
  | some t =>
    some ⟨s.station_id.getD s.id, t, s.p_value, s.change_pct.getD 0,
      s.data_years, s.mean_level, s.current_level⟩

/-- Lookup in the trend_data dictionary keyed by station id.  The
dictionary is built by one assignment per trend-bearing old record in
file order, so a repeated id keeps the last assignment. -/
def trendLookup (old : List OldStation) (i : String) : Option TrendRec :=
  match (old.filter (fun s => s.trend_m_per_decade.isSome && s.id == i)).getLast? with
  | none => none
  | some s => extractTrend s

/-- A station record of the corrected registry produced by
parse_gw_stations_correct, with the optional trend payload attached by
the merge. -/
structure CStation where
  id : String
  name : String
  lon : ℚ
  lat : ℚ
  area : String
  body : String
  trend : Option TrendRec
deriving DecidableEq

/-- Embedding of the merge of fix_coordinates.main: every corrected
station whose id has an entry in trend_data receives that trend
payload; identity and coordinates come from the corrected record.  The
output is exactly the corrected station list. -/
def mergeCorrected (corrected : List CStation) (old : List OldStation) : List CStation :=
  corrected.map (fun s =>
    match trendLookup old s.id with
    | some r => { s with trend := some r }
    | none => s)

/-- A trend-bearing old record whose station does not survive the
corrected parse. -/
def oldOnlyStation : OldStation :=
  ⟨"100001", none, some (-(1/10)), some (1/100), none, some 30, some 250, some 249⟩

/-- A corrected station that shares its id with oldOnlyStation, used to
exhibit a successful trend re-attachment. -/
def fixWitnessStation : CStation :=
  ⟨"100001", "Andau Brunnen", 17, 48, "Seewinkel", "GK100", none⟩

end FixCoordinates

namespace MergeTrends

/-!
Embedding of merge_trends_with_stations, in both variants: the direct
in-place iteration of analyze_trends_full.py (lines 176 to 199) and the
dictionary-based variant of analyze_trends.py (lines 158 to 183).
-/

/-- The per-station result payload stored in trend_results by
process_all_groundwater_trends. -/
structure TrendInfo where
  station_id : String
  trend_m_per_decade : ℚ
  p_value : Option ℚ
  data_years : ℚ
  mean_level : ℚ
  current_level : Option ℚ
deriving DecidableEq

/-- A registry record of gw_stations.json, with the optional
trend-owned field group attached after a merge. -/
structure TStation where
  id : String
  name : String
  lon : ℚ
  lat : ℚ
  trend : Option TrendInfo
deriving DecidableEq

/-- Lookup in a dictionary represented as an association list in
assignment order: the last binding of the key wins. -/
def dictLookup (l : List (String × TrendInfo)) (k : String) : Option TrendInfo :=
  ((l.filter (fun p => p.1 == k)).getLast?).map Prod.snd

/-- Embedding of merge_trends_with_stations from
analyze_trends_full.py: iterate over the registry in place and attach
the trend payload to every station whose id is a key of the results
dictionary. -/
def merge_trends_with_stations (stations : List TStation)
    (tr : List (String × TrendInfo)) : List TStation :=
  stations.map (fun s =>
    match dictLookup tr s.id with
    | some t => { s with trend := some t }
    | none => s)

/-- One step of building the Python dict comprehension keyed by station
id: a repeated id keeps its first position but takes the later record
as value. -/
def dictInsert (acc : List TStation) (s : TStation) : List TStation :=
  if acc.any (fun t => t.id == s.id) then
    acc.map (fun t => if t.id == s.id then s else t)
  else acc ++ [s]

/-- The station_lookup dict of merge_trends_with_stations in
analyze_trends.py, as the list of its values in key insertion order. -/
def dictOfStations (stations : List TStation) : List TStation :=
  stations.foldl dictInsert []

/-- Embedding of merge_trends_with_stations from analyze_trends.py:
build the id-keyed dict of the registry, apply every trend result to
the dict entry of its station id (a station hit repeatedly keeps the
last payload, a result whose id is not a key is dropped), and return
the dict values. -/
def merge_trends_sample (stations : List TStation) (trends : List TrendInfo) :
    List TStation :=
  (dictOfStations stations).map (fun s =>
    match (trends.filter (fun t => t.station_id == s.id)).getLast? with
    | some t => { s with trend := some t }
    | none => s)

/-- Identity and location projection of a registry record, the field
group not owned by the trend merge. -/
def idCoordsOf (s : TStation) : String × String × ℚ × ℚ := (s.id, s.name, s.lon, s.lat)

/-- Two distinct registry records sharing one station id. -/
def stA : TStation := ⟨"376137", "Andau", 17, 48, none⟩

/-- Second registry record with the same id as stA. -/
def stB : TStation := ⟨"376137", "Andau 2", 16, 47, none⟩

/-- A computed trend payload whose station id is absent from the
registry. -/
def strayTrend : TrendInfo := ⟨"999999", -(1/4), none, 30, 250, none⟩

end MergeTrends

namespace ProcessData

/-!
Embedding of the data-line loop of parse_ehyd_csv in
scripts/process_data.py (lines 51 to 72), with value_col = 1.  Lines
are lists of characters; one line either yields an observation or is
skipped, and a file body is the concatenation of the per-line results.
-/

/-- Characters of the data-gap marker that eHYD files use. -/
def gapMarker : List Char := ['L', 'ü', 'c', 'k', 'e']

/-- Strip leading and trailing whitespace, the Python str.strip. -/
def trimSpaces (l : List Char) : List Char :=
  ((l.dropWhile Char.isWhitespace).reverse.dropWhile Char.isWhitespace).reverse

/-- Split a character list at every occurrence of the separator, the
Python str.split. -/
def splitOnChar (c : Char) (l : List Char) : List (List Char) :=
  l.foldr (fun x r =>
    if x = c then [] :: r else (x :: r.headD []) :: r.tail) [[]]

/-- Numeric value of a decimal digit character. -/
def digitVal (c : Char) : Nat := c.toNat - 48

/-- Natural number denoted by a digit string. -/
def natOfDigits (l : List Char) : Nat := l.foldl (fun a c => a * 10 + digitVal c) 0

/-- The date check of the loop: the regular expression match of
dd.mm.yyyy at the start of the field, combined with the validation
that pandas to_datetime performs (an out-of-range month or day raises,
which the loop catches and turns into a skip; day validity is
abstracted to the range 1 to 31).  On success the date is encoded as
yyyy * 10000 + mm * 100 + dd; trailing characters such as a time of
day are ignored. -/
def parseDateKey (cs : List Char) : Option Nat :=
  match cs with
  | d1 :: d2 :: p1 :: m1 :: m2 :: p2 :: y1 :: y2 :: y3 :: y4 :: _ =>
    if (d1.isDigit && d2.isDigit && (p1 == '.') && m1.isDigit && m2.isDigit &&
        (p2 == '.') && y1.isDigit && y2.isDigit && y3.isDigit && y4.isDigit) then
      let dd := digitVal d1 * 10 + digitVal d2
      let mm := digitVal m1 * 10 + digitVal m2
      let yyyy := natOfDigits [y1, y2, y3, y4]
      if 1 ≤ dd ∧ dd ≤ 31 ∧ 1 ≤ mm ∧ mm ≤ 12 then
        some (yyyy * 10000 + mm * 100 + dd)
      else none
    else none
  | _ => none

/-- The Python float() conversion, restricted to the plain decimal
forms that occur in eHYD value fields: digits with an optional decimal
point and at least one digit overall.  Any other string makes float()
raise ValueError, which the loop catches and turns into a skip. -/
def parseDecimal (cs : List Char) : Option ℚ :=
  match splitOnChar '.' cs with
  | [intPart] =>
    if intPart ≠ [] ∧ intPart.all Char.isDigit then some ((natOfDigits intPart : ℚ))
    else none
  | [intPart, fracPart] =>
    if (intPart ≠ [] ∨ fracPart ≠ []) ∧ intPart.all Char.isDigit ∧
        fracPart.all Char.isDigit then
      some ((natOfDigits intPart : ℚ) +
        (natOfDigits fracPart : ℚ) / ((10 ^ fracPart.length : ℕ) : ℚ))
    else none
  | _ => none

/-- Process one data line of parse_ehyd_csv: skip blank lines, lines
carrying the gap marker, lines with fewer than two fields, lines whose
first field does not start with a valid dd.mm.yyyy date, and value
fields that are empty, carry the gap marker or a minus sign, or do not
parse as a number.  A surviving line yields its encoded date and
value (with the decimal comma normalised to a point). -/
def parseDataLine (line : List Char) : Option (Nat × ℚ) :=
  let l := trimSpaces line
  if l.isEmpty then none
  else if decide (List.IsInfix gapMarker l) then none
  else
    let parts := splitOnChar ';' l
    if parts.length < 2 then none
    else
      match parseDateKey (trimSpaces (parts.headD [])) with
      | none => none
      | some d =>
        let vs := (trimSpaces (parts.getD 1 [])).map (fun c => if c = ',' then '.' else c)
        if vs.isEmpty ∨ List.IsInfix gapMarker vs ∨ vs.contains '-' then none
        else (parseDecimal vs).map (fun v => (d, v))

/-- The whole data block: every line contributes its observation or
nothing, in order; no line aborts the parse, and a block with no valid
line yields the empty result. -/
def parse_ehyd_lines (lines : List (List Char)) : List (Nat × ℚ) :=
  lines.filterMap parseDataLine

/-- A block of malformed data lines: blank, short date, gap marker,
invalid month, gap-marked value, negative-decorated value and a
dateless header. -/
def badLines : List (List Char) :=
  [[],
   ['0', '1', '.', '0', '2', '.', 'x', ';', '9'],
   ['L', 'ü', 'c', 'k', 'e', ';', '5'],
   ['0', '2', '.', '1', '3', '.', '1', '9', '9', '9', ';', '3', ',', '5'],
   ['0', '5', '.', '0', '6', '.', '1', '9', '9', '9', ';', 'L', 'ü', 'c', 'k', 'e'],
   ['0', '7', '.', '0', '8', '.', '1', '9', '9', '9', ';', '-', '2', ',', '0'],
   ['W', 'e', 'r', 't', 'e', ':']]

end ProcessData

/-!
Theorems.  The claim-level results are stated over the definitions
above; auxiliary lemmas come first.
-/

open AnalyzeTrendsFull IntegrateFlow QuickProcess FixCoordinates MergeTrends ProcessData

/-- Every element of the deduplicated series is an element of the
input. -/
theorem dedupByDate_subset (l : List Obs) : ∀ x ∈ dedupByDate l, x ∈ l := by
  induction l using dedupByDate.induct with
  | case1 => intro x hx; simp [dedupByDate] at hx
  | case2 o rest ih =>
    intro x hx
    rw [dedupByDate] at hx
    rcases List.mem_cons.mp hx with rfl | hx2
    · exact List.mem_cons_self _ _
    · exact List.mem_cons_of_mem _ (List.mem_of_mem_filter (ih x hx2))

/-- After deduplication no two observations share a date. -/
theorem dedupByDate_pairwise (l : List Obs) :
    (dedupByDate l).Pairwise (fun a b => a.1 ≠ b.1) := by
  induction l using dedupByDate.induct with
  | case1 => simp [dedupByDate]
  | case2 o rest ih =>
    rw [dedupByDate]
    refine List.Pairwise.cons ?_ ih
    intro b hb
    have hbf := dedupByDate_subset _ b hb
    have := List.of_mem_filter hbf
    simpa [bne_iff_ne, ne_comm] using this

/-- Claim C8: in every cleaned series (duplicates removed keeping the
first occurrence, then sorted ascending by date) the retained
timestamps are strictly increasing; in particular no two retained
observations share a timestamp. -/
theorem C8_clean_series_strictly_increasing (series : List Obs) :
    (cleanSeries series).Pairwise (fun a b => a.1 < b.1) := by
  have hperm : List.Perm
      (List.insertionSort (fun a b : Obs => a.1 ≤ b.1) (dedupByDate series))
      (dedupByDate series) :=
    List.perm_insertionSort _ _
  have hne : (cleanSeries series).Pairwise (fun a b : Obs => a.1 ≠ b.1) := by
    unfold cleanSeries
    exact (List.Perm.pairwise_iff (fun hab => Ne.symm hab) hperm).mpr
      (dedupByDate_pairwise series)
  have hle : (cleanSeries series).Pairwise (fun a b : Obs => a.1 ≤ b.1) :=
    List.sorted_insertionSort _ _
  exact (hle.and hne).imp (fun h => Nat.lt_of_le_of_ne h.1 h.2)

/-- Claim C1, counterexample: a 59-sample constant series covers five
annual aggregates with mean 100 and zero slope, so all three conditions
named by the claim hold, yet calculate_trend produces no Trend, because
the 60-sample floor is an additional blocking condition. -/
theorem C1_counterexample :
    gateConditions cexSeries ∧ calculate_trend cexSeries = none := by
  with_unfolding_all decide

/-- Claim C1, amended: a Trend is produced if and only if the raw
series has at least 60 samples, at least 60 samples survive
deduplication and outlier filtering, and the three conditions named by
the claim hold (at least 5 annual aggregates, mean annual value in the
plausible range, decadal slope magnitude within the bound). -/
theorem C1_trend_gate_amended (series : List Obs) :
    (calculate_trend series).isSome = true ↔
      (60 ≤ series.length ∧
        60 ≤ (iqrFilter (cleanSeries series)).length ∧
        gateConditions series) := by
  simp only [calculate_trend, gateConditions, gateAnnual]
  split_ifs with h1 h2 h3 h4 h5
  · exact iff_of_false (by simp) (fun hc => absurd hc.1 (by omega))
  · exact iff_of_false (by simp) (fun hc => absurd hc.2.1 (by omega))
  · exact iff_of_false (by simp) (fun hc => absurd hc.2.2.1 (by omega))
  · refine iff_of_false (by simp) (fun hc => ?_)
    rcases h4 with h | h
    · exact absurd hc.2.2.2.1 (not_le.mpr h)
    · exact absurd hc.2.2.2.2.1 (not_le.mpr h)
  · exact iff_of_false (by simp) (fun hc => absurd hc.2.2.2.2.2 (not_le.mpr h5))
  · refine iff_of_true (by simp) ⟨by omega, by omega, by omega, ?_, ?_, not_lt.mp h5⟩
    · exact not_lt.mp (fun h => h4 (Or.inl h))
    · exact not_lt.mp (fun h => h4 (Or.inr h))

/-- Membership in the distance-augmented station list. -/
theorem mem_withDist (dist : DistFn) (l : List FlowStation) (f : FlowStation) (d : ℚ) :
    (f, d) ∈ withDist dist l ↔ f ∈ l ∧ d = dist f := by
  unfold withDist
  constructor
  · intro h
    rcases List.mem_map.mp h with ⟨g, hg, heq⟩
    injection heq with h1 h2
    subst h1
    subst h2
    exact ⟨hg, rfl⟩
  · rintro ⟨h1, rfl⟩
    exact List.mem_map.mpr ⟨f, h1, rfl⟩

/-- The stations of the within-radius set are exactly the stations
whose distance is at most the radius, in input order. -/
theorem withinRadius_map_fst (dist : DistFn) (l : List FlowStation) (maxD : ℚ) :
    (withinRadius dist l maxD).map Prod.fst =
      l.filter (fun f => decide (dist f ≤ maxD)) := by
  unfold withinRadius withDist
  rw [List.filter_map, List.map_map]
  simp [Function.comp_def]

/-- Every contributing record is a distance-augmented input station. -/
theorem mem_contributing_withDist (dist : DistFn) (stations : List FlowStation)
    (maxD : ℚ) (p : FlowStation × ℚ) (hp : p ∈ contributing dist stations maxD) :
    p ∈ withDist dist stations := by
  simp only [contributing] at hp
  split at hp
  · exact (List.perm_insertionSort _ _).mem_iff.mp (List.mem_of_mem_take hp)
  · exact List.mem_of_mem_filter hp

/-- The inverse-distance weights of a non-empty contributing set have a
positive sum whenever all distances are non-negative. -/
theorem sum_invWeight_pos (dist : DistFn) (stations : List FlowStation) (maxD : ℚ)
    (hd : ∀ f ∈ stations, 0 ≤ dist f)
    (hne : contributing dist stations maxD ≠ []) :
    0 < ((contributing dist stations maxD).map (fun p => invWeight p.2)).sum := by
  apply List.sum_pos
  · intro x hx
    rcases List.mem_map.mp hx with ⟨p, hp, rfl⟩
    have hw := mem_contributing_withDist dist stations maxD p hp
    obtain ⟨f, d⟩ := p
    rcases (mem_withDist dist stations f d).mp hw with ⟨hf, rfl⟩
    have h0 : (0 : ℚ) ≤ dist f := hd f hf
    unfold invWeight
    apply div_pos one_pos
    linarith
  · simp only [ne_eq, List.map_eq_nil_iff]
    exact hne

/-- When the contributing set is non-empty and distances are
non-negative, find_nearby_flow returns the weighted means over the
contributing set, its size, its river labels, and the estimated flag
recording whether the radius search came up empty. -/
theorem find_nearby_flow_eq (dist : DistFn) (stations : List FlowStation) (maxD : ℚ)
    (hd : ∀ f ∈ stations, 0 ≤ dist f)
    (hne : contributing dist stations maxD ≠ []) :
    find_nearby_flow dist stations maxD =
      ⟨some (weightedMeanBy (fun p => p.1.trend_pct_decade) (contributing dist stations maxD)),
       some (weightedMeanBy (fun p => p.1.mean_flow_m3s) (contributing dist stations maxD)),
       (contributing dist stations maxD).length,
       (riversOf (contributing dist stations maxD)).take 4,
       (withinRadius dist stations maxD).isEmpty⟩ := by
  have hpos := sum_invWeight_pos dist stations maxD hd hne
  simp only [find_nearby_flow]
  rw [if_neg (by simp [List.isEmpty_iff, hne]), if_pos hpos]
  rfl

/-- Claim C2: with at least one trend-bearing station within the
radius, the estimated flag is false and the contributing stations are
exactly those within the radius; with none within the radius but a
non-empty station list, the estimated flag is true and the contributors
are the first three stations of the stable distance sort (ties kept in
input order), which are three nearest stations: every chosen record is
at most as distant as every unchosen one. -/
theorem C2_spatial_aggregation (dist : DistFn) (stations : List FlowStation) (maxD : ℚ)
    (hd : ∀ f ∈ stations, 0 ≤ dist f) :
    ((∃ f ∈ stations, dist f ≤ maxD) →
      (find_nearby_flow dist stations maxD).estimated = false ∧
      (contributing dist stations maxD).map Prod.fst =
        stations.filter (fun f => decide (dist f ≤ maxD))) ∧
    ((∀ f ∈ stations, ¬ dist f ≤ maxD) → stations ≠ [] →
      (find_nearby_flow dist stations maxD).estimated = true ∧
      contributing dist stations maxD = (sortedByDist dist stations).take 3 ∧
      (contributing dist stations maxD).length = min 3 stations.length ∧
      (∀ p ∈ contributing dist stations maxD, ∀ q ∈ withDist dist stations,
        q ∉ contributing dist stations maxD → p.2 ≤ q.2)) := by
  constructor
  · rintro ⟨f, hf, hdle⟩
    have hw : (f, dist f) ∈ withinRadius dist stations maxD := by
      refine List.mem_filter.mpr ⟨(mem_withDist dist stations f (dist f)).mpr ⟨hf, rfl⟩, ?_⟩
      simpa using hdle
    have hwne : withinRadius dist stations maxD ≠ [] := List.ne_nil_of_mem hw
    have hc : contributing dist stations maxD = withinRadius dist stations maxD := by
      simp only [contributing]
      rw [if_neg (by simp [List.isEmpty_iff, hwne])]
    refine ⟨?_, by rw [hc, withinRadius_map_fst]⟩
    rw [find_nearby_flow_eq dist stations maxD hd (hc ▸ hwne)]
    simp [List.isEmpty_iff, hwne]
  · intro hall hne
    have hwnil : withinRadius dist stations maxD = [] := by
      unfold withinRadius
      refine List.filter_eq_nil_iff.mpr ?_
      intro p hp
      obtain ⟨f, d⟩ := p
      rcases (mem_withDist dist stations f d).mp hp with ⟨hf, rfl⟩
      simpa using hall f hf
    have hc : contributing dist stations maxD = (sortedByDist dist stations).take 3 := by
      simp only [contributing]
      rw [hwnil]
      simp
    have hperm2 : List.Perm (sortedByDist dist stations) (withDist dist stations) :=
      List.perm_insertionSort _ _
    have hsne : sortedByDist dist stations ≠ [] := by
      intro h0
      apply hne
      rw [h0] at hperm2
      have hlen := hperm2.symm.length_eq
      simp only [withDist, List.length_map, List.length_nil] at hlen
      exact List.length_eq_zero.mp hlen
    have hctne : contributing dist stations maxD ≠ [] := by
      rw [hc]
      intro h0
      rcases List.take_eq_nil_iff.mp h0 with h | h
      · exact absurd h (by norm_num)
      · exact hsne h
    refine ⟨?_, hc, ?_, ?_⟩
    · rw [find_nearby_flow_eq dist stations maxD hd hctne]
      simp [hwnil]
    · rw [hc, List.length_take, hperm2.length_eq]
      simp [withDist]
    · intro p hp q hq hqn
      have hsorted : (sortedByDist dist stations).Pairwise
          (fun a b : FlowStation × ℚ => a.2 ≤ b.2) :=
        List.sorted_insertionSort _ _
      have hqs : q ∈ sortedByDist dist stations := hperm2.mem_iff.mpr hq
      have hsplit := List.take_append_drop 3 (sortedByDist dist stations)
      rw [← hsplit] at hqs hsorted
      have hdq : q ∈ (sortedByDist dist stations).drop 3 := by
        rcases List.mem_append.mp hqs with h | h
        · exact absurd (hc ▸ h) hqn
        · exact h
      exact (List.pairwise_append.mp hsorted).2.2 p (hc ▸ hp) q hdq

/-- Claim C2 witness: in the worked scenario the fallback fires, the
estimated flag is reported and the contributors are the first three of
the distance sort. -/
theorem C2_spatial_aggregation_witness :
    (find_nearby_flow exDist exStations 3).estimated = true ∧
    contributing exDist exStations 3 = (sortedByDist exDist exStations).take 3 := by
  have h := (C2_spatial_aggregation exDist exStations 3
      (by with_unfolding_all decide)).2
    (by with_unfolding_all decide) (by with_unfolding_all decide)
  exact ⟨h.1, h.2.1⟩

/-- Claim C7: for a non-empty contributing set (and the non-negative
distances that the haversine formula yields), the aggregated trend and
magnitude are exactly the means of the contributing trends and mean
discharges weighted by 1 / (1 + distance), and the reported station
count is the size of the contributing set. -/
theorem C7_weighted_mean (dist : DistFn) (stations : List FlowStation) (maxD : ℚ)
    (hd : ∀ f ∈ stations, 0 ≤ dist f)
    (hne : contributing dist stations maxD ≠ []) :
    (find_nearby_flow dist stations maxD).avg_trend =
      some (weightedMeanBy (fun p => p.1.trend_pct_decade)
        (contributing dist stations maxD)) ∧
    (find_nearby_flow dist stations maxD).avg_flow =
      some (weightedMeanBy (fun p => p.1.mean_flow_m3s)
        (contributing dist stations maxD)) ∧
    (find_nearby_flow dist stations maxD).count =
      (contributing dist stations maxD).length := by
  rw [find_nearby_flow_eq dist stations maxD hd hne]
  exact ⟨rfl, rfl, rfl⟩

/-- Claim C7 witness: one station 5 km away inside the radius; the
aggregate equals the weighted mean of the singleton set. -/
theorem C7_weighted_mean_witness :
    (find_nearby_flow exDist7 exStations7 30).avg_trend =
      some (weightedMeanBy (fun p => p.1.trend_pct_decade)
        (contributing exDist7 exStations7 30)) ∧
    (find_nearby_flow exDist7 exStations7 30).count =
      (contributing exDist7 exStations7 30).length := by
  have h := C7_weighted_mean exDist7 exStations7 30
    (by with_unfolding_all decide) (by with_unfolding_all decide)
  exact ⟨h.1, h.2.2⟩

/-- Claim C5, counterexample: a municipality with no groundwater risk
recorded (and the other factors present and equal to 1) receives the
composite 0.65, the value obtained by substituting 0 for the missing
groundwater contribution; substituting the claimed neutral default 0.5
would give 0.825 instead. -/
theorem C5_counterexample :
    (recalculate_risk_score ⟨none, some 1, some 1, some 1⟩).1 = 13/20 ∧
    (13/20 : ℚ) ≠
      pyRound3 ((1/2) * (35/100) + 1 * (25/100) + 1 * (25/100) + 1 * (15/100)) := by
  with_unfolding_all decide

/-- Claim C5, amended: the composite risk computation substitutes the
neutral 0.5 for a missing precipitation or flow risk, but substitutes 0
for a missing groundwater risk or hydro factor: a record with those
fields missing is scored exactly like one carrying 0.5, respectively 0,
in them. -/
theorem C5_defaults_amended (g hf p fl : Option ℚ) :
    recalculate_risk_score ⟨g, hf, none, none⟩ =
      recalculate_risk_score ⟨g, hf, some (1/2), some (1/2)⟩ ∧
    recalculate_risk_score ⟨none, none, p, fl⟩ =
      recalculate_risk_score ⟨some 0, some 0, p, fl⟩ := by
  constructor <;> simp [recalculate_risk_score, orFalsy]

/-- Claim C6, counterexample: update_municipality_risk classifies a
composite score exactly equal to its high threshold 0.7 as medium, not
high, because its comparisons are strict. -/
theorem C6_counterexample :
    risk_category_trends_full (7/10) = "medium" ∧
    risk_category_trends_full (7/10) ≠ "high" := by
  with_unfolding_all decide

/-- Claim C6, amended: the flow and precipitation integration stages
categorise with inclusive thresholds (a score equal to 0.6 is high, a
score equal to 0.4 is medium), while update_municipality_risk uses
strict thresholds 0.7 and 0.4, so a score exactly at a threshold falls
in the lower category there. -/
theorem C6_thresholds_amended :
    (∀ s : ℚ, 6/10 ≤ s → categorize_integrate s = "high") ∧
    (∀ s : ℚ, 4/10 ≤ s → s < 6/10 → categorize_integrate s = "medium") ∧
    (∀ s : ℚ, s < 4/10 → categorize_integrate s = "low") ∧
    (∀ s : ℚ, 7/10 < s → risk_category_trends_full s = "high") ∧
    (∀ s : ℚ, 4/10 < s → s ≤ 7/10 → risk_category_trends_full s = "medium") ∧
    (∀ s : ℚ, s ≤ 4/10 → risk_category_trends_full s = "low") := by
  refine ⟨?_, ?_, ?_, ?_, ?_, ?_⟩
  · intro s h
    simp [categorize_integrate, h]
  · intro s h1 h2
    rw [categorize_integrate, if_neg (by linarith), if_pos h1]
  · intro s h
    rw [categorize_integrate, if_neg (by linarith), if_neg (by linarith)]
  · intro s h
    simp [risk_category_trends_full, h]
  · intro s h1 h2
    rw [risk_category_trends_full, if_neg (by linarith), if_pos h1]
  · intro s h
    rw [risk_category_trends_full, if_neg (by linarith), if_neg (by linarith)]

/-- Claim C6 witness: the integration stage maps the boundary scores
0.6 and 0.4 to high and medium, while update_municipality_risk maps its
own high boundary 0.7 to medium. -/
theorem C6_thresholds_witness :
    categorize_integrate (6/10) = "high" ∧
    categorize_integrate (4/10) = "medium" ∧
    risk_category_trends_full (7/10) = "medium" :=
  ⟨C6_thresholds_amended.1 (6/10) (by norm_num),
   C6_thresholds_amended.2.1 (4/10) (by norm_num) (by norm_num),
   C6_thresholds_amended.2.2.2.2.1 (7/10) (by norm_num) (by norm_num)⟩

/-- Claim C3: the quick_process risk-score stage is not a function of
its input collection: with identical municipality data, two admissible
draws of the uniform placeholder (both inside [0.3, 0.7]) produce
different persisted risk scores, so re-running the stage does not
reproduce its output.  This contradicts the idempotence the
specification requires and that the repository itself treats as the
intended behaviour (the random term is an acknowledged placeholder). -/
theorem C3_random_risk_not_idempotent :
    ((3 : ℚ)/10 ≤ 3/10 ∧ (3 : ℚ)/10 ≤ 7/10) ∧
    ((3 : ℚ)/10 ≤ 7/10 ∧ (7 : ℚ)/10 ≤ 7/10) ∧
    calculate_risk_scores [⟨0, 0⟩] [3/10] ≠ calculate_risk_scores [⟨0, 0⟩] [7/10] := by
  with_unfolding_all decide

/-- Claim C4, counterexample: a trend stored for a station that does
not appear in the corrected station list (for example one rejected by
the bounds validation of the superior transform) vanishes from the
output of the correction pass, so previously computed trend data can be
lost. -/
theorem C4_counterexample :
    mergeCorrected [] [oldOnlyStation] = [] ∧
    (extractTrend oldOnlyStation).isSome = true := by
  with_unfolding_all decide

/-- Claim C4, amended: the correction pass emits exactly the corrected
station list, with identity and coordinates taken from the superior
transform, and re-attaches by station id every previously stored trend
whose id appears among the corrected stations; trends of ids absent
from the corrected list are dropped. -/
theorem C4_coordinate_fix_amended (corrected : List CStation) (old : List OldStation) :
    ((mergeCorrected corrected old).map (fun s => (s.id, s.name, s.lon, s.lat)) =
      corrected.map (fun s => (s.id, s.name, s.lon, s.lat))) ∧
    (∀ s ∈ corrected, ∀ r, trendLookup old s.id = some r →
      ∃ t ∈ mergeCorrected corrected old, t.id = s.id ∧ t.trend = some r ∧
        t.lon = s.lon ∧ t.lat = s.lat) ∧
    (∀ s ∈ corrected, trendLookup old s.id = none →
      s ∈ mergeCorrected corrected old) := by
  refine ⟨?_, ?_, ?_⟩
  · unfold mergeCorrected
    rw [List.map_map]
    apply List.map_congr_left
    intro s _
    cases h : trendLookup old s.id <;> simp [Function.comp, h]
  · intro s hs r hr
    refine ⟨{ s with trend := some r }, ?_, rfl, rfl, rfl, rfl⟩
    unfold mergeCorrected
    exact List.mem_map.mpr ⟨s, hs, by rw [hr]⟩
  · intro s hs h
    unfold mergeCorrected
    exact List.mem_map.mpr ⟨s, hs, by rw [h]⟩

/-- Claim C4 witness: a corrected station sharing its id with a stored
trend receives exactly that trend, with its corrected coordinates
intact. -/
theorem C4_coordinate_fix_witness :
    ∃ t ∈ mergeCorrected [fixWitnessStation] [oldOnlyStation],
      t.id = fixWitnessStation.id ∧
      t.trend = some ⟨"100001", -(1/10), some (1/100), 0, some 30, some 250, some 249⟩ ∧
      t.lon = fixWitnessStation.lon ∧ t.lat = fixWitnessStation.lat :=
  (C4_coordinate_fix_amended [fixWitnessStation] [oldOnlyStation]).2.1
    fixWitnessStation (List.mem_singleton_self _) _ (by with_unfolding_all decide)

/-- Claim C9: a data line on which date parsing fails, numeric parsing
fails, or which carries the data-gap marker, contributes nothing to the
parse and does not disturb the remaining lines (the parser is a total
function, so no input can make it raise); when every line is malformed
the parser returns the empty result rather than an error. -/
theorem C9_parser_skips_malformed :
    (∀ (line : List Char) (rest : List (List Char)),
      parseDataLine line = none →
      parse_ehyd_lines (line :: rest) = parse_ehyd_lines rest) ∧
    (∀ lines : List (List Char), (∀ l ∈ lines, parseDataLine l = none) →
      parse_ehyd_lines lines = []) := by
  constructor
  · intro line rest h
    simp [parse_ehyd_lines, List.filterMap_cons, h]
  · intro lines h
    exact List.filterMap_eq_nil_iff.mpr h

/-- Claim C9 witness: a block consisting of a blank line, a truncated
date, a gap marker, an invalid month, a gap-marked value, a
minus-decorated value and a header line parses to the empty result. -/
theorem C9_parser_skips_malformed_witness :
    parse_ehyd_lines badLines = [] :=
  C9_parser_skips_malformed.2 badLines (by with_unfolding_all decide)

/-- Folding dictInsert over records with pairwise distinct ids appends
them all in order. -/
theorem dictFold_append (l : List TStation) : ∀ acc : List TStation,
    ((acc ++ l).map (fun s => s.id)).Nodup → l.foldl dictInsert acc = acc ++ l := by
  induction l with
  | nil =>
    intro acc _
    simp
  | cons s t ih =>
    intro acc h
    have hdisj : (acc.map (fun s => s.id)).Disjoint ((s :: t).map (fun s => s.id)) := by
      rw [List.map_append] at h
      exact (List.nodup_append.mp h).2.2
    have hna : acc.any (fun u => u.id == s.id) = false := by
      rw [List.any_eq_false]
      intro u hu hbeq
      have heq : u.id = s.id := by simpa using hbeq
      exact hdisj (List.mem_map_of_mem _ hu) (by simp [heq])
    rw [List.foldl_cons]
    have hstep : dictInsert acc s = acc ++ [s] := by
      unfold dictInsert
      rw [if_neg (by simp [hna])]
    rw [hstep, ih (acc ++ [s]) (by simpa [List.append_assoc] using h)]
    simp

/-- With pairwise distinct registry ids, the id-keyed dictionary lists
the registry unchanged. -/
theorem dictOfStations_eq_of_nodup (stations : List TStation)
    (h : (stations.map (fun s => s.id)).Nodup) : dictOfStations stations = stations := by
  have h2 := dictFold_append stations [] (by simpa using h)
  simpa [dictOfStations] using h2

/-- Dropping the trend results whose station id does not occur in the
registry does not change any lookup made for a registry station. -/
theorem dictLookup_filter_relevant (stations : List TStation)
    (tr : List (String × TrendInfo)) (s : TStation) (hs : s ∈ stations) :
    dictLookup (tr.filter (fun p => stations.any (fun u => u.id == p.1))) s.id =
      dictLookup tr s.id := by
  unfold dictLookup
  rw [List.filter_filter]
  have hf : (tr.filter (fun a =>
      (a.1 == s.id) && stations.any (fun u => u.id == a.1))) =
      tr.filter (fun a => a.1 == s.id) := by
    apply List.filter_congr
    intro p _
    by_cases hb : (p.1 == s.id) = true
    · have heq : p.1 = s.id := by simpa using hb
      simp only [hb, Bool.true_and]
      apply List.any_eq_true.mpr
      exact ⟨s, hs, by simp [heq]⟩
    · simp [hb]
  rw [hf]

/-- Claim C10, counterexample: the dictionary-based merge of
analyze_trends.py collapses registry records sharing an id, so the
output does not contain the same records as the registry: of two
records with one id only the later survives (at the position of the
earlier). -/
theorem C10_counterexample :
    merge_trends_sample [stA, stB] [] = [stB] ∧
    merge_trends_sample [stA, stB] [] ≠ [stA, stB] := by
  with_unfolding_all decide

/-- Claim C10, amended: the in-place merge of analyze_trends_full.py
preserves the registry records, their order and their identity and
coordinate fields exactly, touching only the trend-owned field group;
trend results whose station id is absent from the registry are
discarded without effect, and a registry with no matching trend result
is returned unchanged.  The dictionary-based merge of analyze_trends.py
preserves records, order and identity fields as well whenever the
registry ids are pairwise distinct (with a duplicated id it collapses
the duplicates). -/
theorem C10_merge_amended :
    (∀ (stations : List TStation) (tr : List (String × TrendInfo)),
      (merge_trends_with_stations stations tr).map idCoordsOf =
        stations.map idCoordsOf) ∧
    (∀ (stations : List TStation) (tr : List (String × TrendInfo)),
      merge_trends_with_stations stations tr =
        merge_trends_with_stations stations
          (tr.filter (fun p => stations.any (fun u => u.id == p.1)))) ∧
    (∀ (stations : List TStation) (tr : List (String × TrendInfo)),
      (∀ s ∈ stations, dictLookup tr s.id = none) →
      merge_trends_with_stations stations tr = stations) ∧
    (∀ (stations : List TStation) (trends : List TrendInfo),
      (stations.map (fun s => s.id)).Nodup →
      (merge_trends_sample stations trends).map idCoordsOf =
        stations.map idCoordsOf) := by
  refine ⟨?_, ?_, ?_, ?_⟩
  · intro stations tr
    unfold merge_trends_with_stations
    rw [List.map_map]
    apply List.map_congr_left
    intro s _
    cases h : dictLookup tr s.id <;> simp [Function.comp, idCoordsOf, h]
  · intro stations tr
    unfold merge_trends_with_stations
    apply List.map_congr_left
    intro s hs
    rw [dictLookup_filter_relevant stations tr s hs]
  · intro stations tr h
    unfold merge_trends_with_stations
    have h2 : stations.map (fun s =>
        match dictLookup tr s.id with
        | some t => { s with trend := some t }
        | none => s) = stations.map (fun s => s) :=
      List.map_congr_left (fun s hs => by rw [h s hs])
    rw [h2, List.map_id']
  · intro stations trends h
    unfold merge_trends_sample
    rw [dictOfStations_eq_of_nodup stations h, List.map_map]
    apply List.map_congr_left
    intro s _
    cases hgl : (trends.filter (fun t => t.station_id == s.id)).getLast? <;>
      simp [Function.comp, idCoordsOf, hgl]

/-- Claim C10 witness: a trend result for an unknown station id leaves
a one-station registry untouched, and the dictionary-based merge
preserves the identity projection of a duplicate-free registry. -/
theorem C10_merge_witness :
    merge_trends_with_stations [stA] [("999999", strayTrend)] = [stA] ∧
    (merge_trends_sample [stA] [strayTrend]).map idCoordsOf = [stA].map idCoordsOf := by
  constructor
  · exact C10_merge_amended.2.2.1 [stA] [("999999", strayTrend)]
      (by with_unfolding_all decide)
  · exact C10_merge_amended.2.2.2 [stA] [strayTrend] (by with_unfolding_all decide)
